import Mathlib

/-!
Verification of the capture engine and tone emitter of `voice_mcp/audio.py`.

The capture loop of `AudioRecorder.record` is embedded as a recursive
function over the list of audio frames popped from the device queue during
one session.  Machine floats are idealised as exact rationals; the RMS
comparison `sqrt(mean(chunk**2)) < silence_threshold` is embedded without
the square root as `sum of squares < threshold^2 * length` together with
`0 <= threshold`, which is equivalent for nonempty frames (lemma
`is_silent_iff_rms_lt` below) and, like numpy's NaN comparison, false for
an empty frame.  Python's `int()` truncation toward zero is `pyInt`.
-/

/-- One audio frame (one ~30 ms block delivered by the device callback),
mono single-precision samples idealised as rationals. -/
abbrev Frame := List ℚ

/-- Python `int(q)`: truncation toward zero. -/
def pyInt (q : ℚ) : ℤ := if 0 ≤ q then ⌊q⌋ else ⌈q⌉

/-- Module-level constant `SAMPLE_RATE = 16000`. -/
def SAMPLE_RATE : ℕ := 16000

/-- Module-level constant `SILENCE_THRESHOLD = 0.01`. -/
def SILENCE_THRESHOLD : ℚ := 1/100

/-- Module-level constant `SILENCE_DURATION_S = 2.5`. -/
def SILENCE_DURATION_S : ℚ := 5/2

/-- Module-level constant `BLOCK_DURATION_MS = 30`. -/
def BLOCK_DURATION_MS : ℕ := 30

/-- Constructor arguments of `AudioRecorder.__init__`. -/
structure RecorderConfig where
  sample_rate : ℕ
  silence_threshold : ℚ
  silence_duration : ℚ
deriving DecidableEq

/-- `samples_for_silence = int(self.silence_duration * self.sample_rate)`. -/
def samples_for_silence (c : RecorderConfig) : ℤ :=
  pyInt (c.silence_duration * c.sample_rate)

/-- `max_samples = int(timeout_seconds * self.sample_rate)`. -/
def max_samples (c : RecorderConfig) (timeout_seconds : ℚ) : ℤ :=
  pyInt (timeout_seconds * c.sample_rate)

/-- Sum of squared samples of a frame (the `np.mean(audio**2)` numerator). -/
def sumSq (f : Frame) : ℚ := (f.map (fun x => x * x)).sum

/-- The test `self._calculate_rms(chunk) < self.silence_threshold`, i.e.
`sqrt(sum(x^2)/len) < threshold`, embedded square-root-free (see header). -/
def is_silent (c : RecorderConfig) (f : Frame) : Bool :=
  decide (0 ≤ c.silence_threshold) &&
    decide (sumSq f < c.silence_threshold ^ 2 * f.length)

/-- The mutable session state of one `record()` invocation: the list
`recorded_chunks` and the two counters `silence_samples`, `total_samples`. -/
structure SessionState where
  recorded_chunks : List Frame
  silence_samples : ℕ
  total_samples : ℕ
deriving DecidableEq

/-- The state at the top of the loop: empty chunk list, both counters 0. -/
def initState : SessionState := ⟨[], 0, 0⟩

/-- One loop iteration body up to the stop checks: append the chunk, add its
length to `total_samples`, and add to / reset `silence_samples` by RMS. -/
def consumeChunk (c : RecorderConfig) (st : SessionState) (chunk : Frame) :
    SessionState :=
  { recorded_chunks := st.recorded_chunks ++ [chunk]
    silence_samples :=
      if is_silent c chunk then st.silence_samples + chunk.length else 0
    total_samples := st.total_samples + chunk.length }

/-- Stop condition A: `silence_samples >= samples_for_silence and
total_samples > samples_for_silence`. -/
def silence_stop (c : RecorderConfig) (st : SessionState) : Bool :=
  decide ((st.silence_samples : ℤ) ≥ samples_for_silence c) &&
    decide ((st.total_samples : ℤ) > samples_for_silence c)

/-- Stop condition B: `total_samples >= max_samples`. -/
def timeout_stop (c : RecorderConfig) (timeout_seconds : ℚ)
    (st : SessionState) : Bool :=
  decide ((st.total_samples : ℤ) ≥ max_samples c timeout_seconds)

/-- Why the `record()` loop ended: stop condition A, stop condition B, or
the frame supply ending without either firing (external stop / stop event). -/
inductive StopReason where
  | silence
  | timeout
  | external
deriving DecidableEq

/-- The `while` loop of `record()`: consume queued frames in order; after
each frame check condition A then condition B; when the supply of frames
ends without a break, the session ended externally. -/
def recordLoop (c : RecorderConfig) (timeout_seconds : ℚ) :
    List Frame → SessionState → SessionState × StopReason
  | [], st => (st, StopReason.external)
  | chunk :: rest, st =>
    let st' := consumeChunk c st chunk
    if silence_stop c st' then (st', StopReason.silence)
    else if timeout_stop c timeout_seconds st' then (st', StopReason.timeout)
    else recordLoop c timeout_seconds rest st'

/-- `AudioRecorder.record`: run the loop from the fresh state on the frames
delivered during the session; return the empty sequence when no chunk was
recorded, else the flattened concatenation of all recorded chunks. -/
def record (c : RecorderConfig) (timeout_seconds : ℚ) (frames : List Frame) :
    List ℚ × StopReason :=
  let result := recordLoop c timeout_seconds frames initState
  (if result.1.recorded_chunks = [] then []
   else result.1.recorded_chunks.flatten,
   result.2)

/-- Fold of the loop body over a frame list from a given state. -/
def runFrom (c : RecorderConfig) (st : SessionState) (fs : List Frame) :
    SessionState :=
  fs.foldl (consumeChunk c) st

/-- Session state after consuming a given prefix of the frame sequence. -/
def stateAfter (c : RecorderConfig) (fs : List Frame) : SessionState :=
  runFrom c initState fs

/-- The guard `if not recorded_chunks: return empty` agrees with flattening,
since flattening an empty chunk list is the empty sequence. -/
lemma empty_guard (l : List Frame) :
    (if l = [] then ([] : List ℚ) else l.flatten) = l.flatten := by
  rcases l with _ | ⟨f, fs⟩ <;> simp

example : record ⟨4, 1/10, 1⟩ 100 [[1,1],[0,0],[0,0],[0,0]] =
    ([1,1,0,0,0,0], StopReason.silence) := by
  norm_num [record, recordLoop, consumeChunk, is_silent, sumSq, silence_stop,
    timeout_stop, samples_for_silence, max_samples, pyInt, initState, empty_guard]
  exact fun h => absurd h (by simp)

example : record ⟨4, 1/10, 1⟩ 1 [[0,0],[0,0]] =
    ([0,0,0,0], StopReason.timeout) := by
  norm_num [record, recordLoop, consumeChunk, is_silent, sumSq, silence_stop,
    timeout_stop, samples_for_silence, max_samples, pyInt, initState, empty_guard]
  exact fun h => absurd h (by simp)

lemma runFrom_append (c : RecorderConfig) (st : SessionState)
    (fs gs : List Frame) :
    runFrom c st (fs ++ gs) = runFrom c (runFrom c st fs) gs := by
  simp [runFrom, List.foldl_append]

lemma runFrom_chunks (c : RecorderConfig) (fs : List Frame) :
    ∀ st : SessionState,
      (runFrom c st fs).recorded_chunks = st.recorded_chunks ++ fs := by
  induction fs with
  | nil => intro st; simp [runFrom]
  | cons f rest ih =>
    intro st
    show (runFrom c (consumeChunk c st f) rest).recorded_chunks = _
    rw [ih]
    simp [consumeChunk]

/-- If neither stop condition holds at any proper prefix and one of them
holds after consuming frame `i`, the loop stops exactly after frame `i`,
with condition A taking precedence over condition B. -/
lemma recordLoop_firstFire (c : RecorderConfig) (t : ℚ) :
    ∀ (i : ℕ) (frames : List Frame) (st0 : SessionState),
      i < frames.length →
      (silence_stop c (runFrom c st0 (frames.take (i+1))) = true ∨
        timeout_stop c t (runFrom c st0 (frames.take (i+1))) = true) →
      (∀ j, j < i → silence_stop c (runFrom c st0 (frames.take (j+1))) = false ∧
        timeout_stop c t (runFrom c st0 (frames.take (j+1))) = false) →
      recordLoop c t frames st0 =
        (runFrom c st0 (frames.take (i+1)),
          if silence_stop c (runFrom c st0 (frames.take (i+1)))
          then StopReason.silence else StopReason.timeout) := by
  intro i
  induction i with
  | zero =>
    intro frames st0 hi hfire _
    match frames with
    | [] => simp at hi
    | f :: rest =>
      have hconv : runFrom c st0 ((f :: rest).take (0+1)) = consumeChunk c st0 f := by
        simp [runFrom]
      have key : recordLoop c t (f :: rest) st0 =
          (if silence_stop c (consumeChunk c st0 f)
            then (consumeChunk c st0 f, StopReason.silence)
            else if timeout_stop c t (consumeChunk c st0 f)
              then (consumeChunk c st0 f, StopReason.timeout)
              else recordLoop c t rest (consumeChunk c st0 f)) := rfl
      rw [hconv] at hfire ⊢
      rw [key]
      rcases hfire with hA | hB
      · simp [hA]
      · cases hA : silence_stop c (consumeChunk c st0 f) with
        | true => simp [hA]
        | false => simp [hA, hB]
  | succ j ih =>
    intro frames st0 hi hfire hbefore
    match frames with
    | [] => simp at hi
    | f :: rest =>
      have hstep : ∀ k : ℕ, runFrom c st0 ((f :: rest).take (k+1)) =
          runFrom c (consumeChunk c st0 f) (rest.take k) := by
        intro k
        simp only [List.take_succ_cons]
        rfl
      have h0 := hbefore 0 (Nat.succ_pos j)
      rw [hstep 0] at h0
      simp only [List.take_zero] at h0
      have hrun0 : runFrom c (consumeChunk c st0 f) [] = consumeChunk c st0 f := rfl
      rw [hrun0] at h0
      have key : recordLoop c t (f :: rest) st0 =
          recordLoop c t rest (consumeChunk c st0 f) := by
        show (if silence_stop c (consumeChunk c st0 f)
            then (consumeChunk c st0 f, StopReason.silence)
            else if timeout_stop c t (consumeChunk c st0 f)
              then (consumeChunk c st0 f, StopReason.timeout)
              else recordLoop c t rest (consumeChunk c st0 f)) = _
        rw [h0.1, h0.2]
        simp
      rw [key, hstep (j+1)]
      rw [hstep (j+1)] at hfire
      refine ih rest (consumeChunk c st0 f) (by simpa using hi) hfire ?_
      intro k hk
      have hb := hbefore (k+1) (Nat.succ_lt_succ hk)
      rw [hstep (k+1)] at hb
      exact hb

/-- `record` when the first stop-condition fire is at frame `i`: the result
is the flattened concatenation of frames `0..i` and the stop reason is
silence when condition A holds there, else timeout. -/
lemma record_of_firstFire (c : RecorderConfig) (t : ℚ) (frames : List Frame)
    (i : ℕ) (hi : i < frames.length)
    (hfire : silence_stop c (stateAfter c (frames.take (i+1))) = true ∨
      timeout_stop c t (stateAfter c (frames.take (i+1))) = true)
    (hbefore : ∀ j, j < i →
      silence_stop c (stateAfter c (frames.take (j+1))) = false ∧
      timeout_stop c t (stateAfter c (frames.take (j+1))) = false) :
    record c t frames = ((frames.take (i+1)).flatten,
      if silence_stop c (stateAfter c (frames.take (i+1)))
      then StopReason.silence else StopReason.timeout) := by
  have h := recordLoop_firstFire c t i frames initState hi hfire hbefore
  simp only [record, h]
  have hch : (stateAfter c (frames.take (i+1))).recorded_chunks =
      frames.take (i+1) := by
    simp [stateAfter, runFrom_chunks, initState]
  simp only [stateAfter] at hch
  rw [hch, empty_guard]
  rfl

lemma record_silence_of_firstFire (c : RecorderConfig) (t : ℚ)
    (frames : List Frame) (i : ℕ) (hi : i < frames.length)
    (hA : silence_stop c (stateAfter c (frames.take (i+1))) = true)
    (hbefore : ∀ j, j < i →
      silence_stop c (stateAfter c (frames.take (j+1))) = false ∧
      timeout_stop c t (stateAfter c (frames.take (j+1))) = false) :
    record c t frames = ((frames.take (i+1)).flatten, StopReason.silence) := by
  rw [record_of_firstFire c t frames i hi (Or.inl hA) hbefore, if_pos hA]

lemma record_timeout_of_firstFire (c : RecorderConfig) (t : ℚ)
    (frames : List Frame) (i : ℕ) (hi : i < frames.length)
    (hAi : silence_stop c (stateAfter c (frames.take (i+1))) = false)
    (hB : timeout_stop c t (stateAfter c (frames.take (i+1))) = true)
    (hbefore : ∀ j, j < i →
      silence_stop c (stateAfter c (frames.take (j+1))) = false ∧
      timeout_stop c t (stateAfter c (frames.take (j+1))) = false) :
    record c t frames = ((frames.take (i+1)).flatten, StopReason.timeout) := by
  rw [record_of_firstFire c t frames i hi (Or.inr hB) hbefore]
  rw [hAi]
  simp

/-- C1: whenever frames with RMS below the silence threshold have accumulated
at least `samples_for_silence` consecutive silent samples and at the
triggering frame (the first frame at which a stop condition holds) the total
sample count exceeds `samples_for_silence`, `record()` terminates via the
silence path and returns exactly the concatenation, in arrival order, of all
frames consumed up to and including the triggering frame. -/
theorem record_silence_path_exact (c : RecorderConfig) (t : ℚ)
    (frames : List Frame) (i : ℕ) (hi : i < frames.length)
    (hA : silence_stop c (stateAfter c (frames.take (i+1))) = true)
    (hbefore : ∀ j, j < i →
      silence_stop c (stateAfter c (frames.take (j+1))) = false ∧
      timeout_stop c t (stateAfter c (frames.take (j+1))) = false) :
    record c t frames = ((frames.take (i+1)).flatten, StopReason.silence) :=
  record_silence_of_firstFire c t frames i hi hA hbefore

/-- Witness for C1 at a concrete session: config (rate 4, threshold 1/10,
silence 1 s), timeout 100 s, one loud frame then three silent frames. -/
theorem record_silence_path_exact_witness :
    record ⟨4, 1/10, 1⟩ 100 [[1,1],[0,0],[0,0],[0,0]] =
      ([1,1,0,0,0,0], StopReason.silence) := by
  have h := record_silence_path_exact ⟨4, 1/10, 1⟩ 100
    [[1,1],[0,0],[0,0],[0,0]] 2
    (by norm_num)
    (by norm_num [silence_stop, stateAfter, runFrom, consumeChunk, is_silent,
      sumSq, samples_for_silence, pyInt, initState])
    (by intro j hj
        interval_cases j <;>
          norm_num [silence_stop, timeout_stop, stateAfter, runFrom,
            consumeChunk, is_silent, sumSq, samples_for_silence, max_samples,
            pyInt, initState])
  simpa using h

/-- C2: if the running total sample count reaches `max_samples` at frame `i`
and the silence condition was never met up to and including that frame,
`record()` terminates via the timeout path, regardless of frame loudness. -/
theorem record_timeout_path (c : RecorderConfig) (t : ℚ)
    (frames : List Frame) (i : ℕ) (hi : i < frames.length)
    (hB : timeout_stop c t (stateAfter c (frames.take (i+1))) = true)
    (hA : ∀ j, j ≤ i → silence_stop c (stateAfter c (frames.take (j+1))) = false)
    (hbefore : ∀ j, j < i →
      timeout_stop c t (stateAfter c (frames.take (j+1))) = false) :
    record c t frames = ((frames.take (i+1)).flatten, StopReason.timeout) :=
  record_timeout_of_firstFire c t frames i hi (hA i le_rfl) hB
    (fun j hj => ⟨hA j hj.le, hbefore j hj⟩)

/-- Witness for C2: config (rate 4, threshold 1/10, silence 1 s), timeout
1 s, two silent frames; the total reaches `max_samples = 4` at the second
frame while the silence condition (which needs total > 4) never fires. -/
theorem record_timeout_path_witness :
    record ⟨4, 1/10, 1⟩ 1 [[0,0],[0,0]] = ([0,0,0,0], StopReason.timeout) := by
  have h := record_timeout_path ⟨4, 1/10, 1⟩ 1 [[0,0],[0,0]] 1
    (by norm_num)
    (by norm_num [timeout_stop, stateAfter, runFrom, consumeChunk, is_silent,
      sumSq, max_samples, pyInt, initState])
    (by intro j hj
        interval_cases j <;>
          norm_num [silence_stop, stateAfter, runFrom, consumeChunk, is_silent,
            sumSq, samples_for_silence, pyInt, initState])
    (by intro j hj
        interval_cases j <;>
          norm_num [timeout_stop, stateAfter, runFrom, consumeChunk, is_silent,
            sumSq, max_samples, pyInt, initState])
  simpa using h

/-- C6: a session in which zero frames were consumed returns the empty
sample sequence as an ordinary (non-exceptional) result. -/
theorem record_no_frames_empty (c : RecorderConfig) (t : ℚ) :
    record c t [] = ([], StopReason.external) := rfl

/-- C10: when a single consumed frame makes both stop conditions true
simultaneously (and no earlier frame fired either), `record()` reports the
silence reason, because condition A is evaluated before condition B. -/
theorem record_tie_prefers_silence (c : RecorderConfig) (t : ℚ)
    (frames : List Frame) (i : ℕ) (hi : i < frames.length)
    (hA : silence_stop c (stateAfter c (frames.take (i+1))) = true)
    (hB : timeout_stop c t (stateAfter c (frames.take (i+1))) = true)
    (hbefore : ∀ j, j < i →
      silence_stop c (stateAfter c (frames.take (j+1))) = false ∧
      timeout_stop c t (stateAfter c (frames.take (j+1))) = false) :
    (record c t frames).2 = StopReason.silence := by
  rw [record_silence_of_firstFire c t frames i hi hA hbefore]

/-- Witness for C10: config (rate 4, threshold 1/2, silence 1 s), timeout
1.5 s, three silent frames; after the third frame the silence condition
(6 >= 4 and 6 > 4) and the timeout condition (6 >= 6) hold together. -/
theorem record_tie_prefers_silence_witness :
    (record ⟨4, 1/2, 1⟩ (3/2) [[0,0],[0,0],[0,0]]).2 = StopReason.silence :=
  record_tie_prefers_silence ⟨4, 1/2, 1⟩ (3/2) [[0,0],[0,0],[0,0]] 2
    (by norm_num)
    (by norm_num [silence_stop, stateAfter, runFrom, consumeChunk, is_silent,
      sumSq, samples_for_silence, pyInt, initState])
    (by norm_num [timeout_stop, stateAfter, runFrom, consumeChunk, is_silent,
      sumSq, max_samples, pyInt, initState])
    (by intro j hj
        interval_cases j <;>
          norm_num [silence_stop, timeout_stop, stateAfter, runFrom,
            consumeChunk, is_silent, sumSq, samples_for_silence, max_samples,
            pyInt, initState])

lemma silence_stop_true_iff (c : RecorderConfig) (st : SessionState) :
    silence_stop c st = true ↔
      samples_for_silence c ≤ (st.silence_samples : ℤ) ∧
      samples_for_silence c < (st.total_samples : ℤ) := by
  simp [silence_stop, ge_iff_le, gt_iff_lt]

lemma silence_stop_false_iff (c : RecorderConfig) (st : SessionState) :
    silence_stop c st = false ↔
      ((st.silence_samples : ℤ) < samples_for_silence c ∨
        (st.total_samples : ℤ) ≤ samples_for_silence c) := by
  rw [← Bool.not_eq_true, silence_stop_true_iff]
  push_neg
  constructor
  · intro h
    by_cases h1 : samples_for_silence c ≤ (st.silence_samples : ℤ)
    · exact Or.inr (h h1)
    · exact Or.inl (lt_of_not_le h1)
  · intro h h1
    rcases h with h | h
    · exact absurd h1 (not_le_of_lt h)
    · exact h

lemma timeout_stop_true_iff (c : RecorderConfig) (t : ℚ) (st : SessionState) :
    timeout_stop c t st = true ↔ max_samples c t ≤ (st.total_samples : ℤ) := by
  simp [timeout_stop, ge_iff_le]

lemma timeout_stop_false_iff (c : RecorderConfig) (t : ℚ) (st : SessionState) :
    timeout_stop c t st = false ↔ (st.total_samples : ℤ) < max_samples c t := by
  rw [← Bool.not_eq_true, timeout_stop_true_iff, not_le]

lemma runFrom_replicate_silent (c : RecorderConfig) (f : Frame)
    (hf : is_silent c f = true) :
    ∀ (n : ℕ) (st : SessionState),
      (runFrom c st (List.replicate n f)).silence_samples =
          st.silence_samples + n * f.length ∧
        (runFrom c st (List.replicate n f)).total_samples =
          st.total_samples + n * f.length := by
  intro n
  induction n with
  | zero => intro st; simp [runFrom]
  | succ m ih =>
    intro st
    rw [List.replicate_succ]
    show (runFrom c (consumeChunk c st f) (List.replicate m f)).silence_samples
        = _ ∧
      (runFrom c (consumeChunk c st f) (List.replicate m f)).total_samples = _
    rcases ih (consumeChunk c st f) with ⟨h1, h2⟩
    rw [h1, h2]
    simp only [consumeChunk, hf, if_true]
    constructor <;> ring

lemma runFrom_replicate_loud (c : RecorderConfig) (f : Frame)
    (hf : is_silent c f = false) :
    ∀ (n : ℕ) (st : SessionState),
      (runFrom c st (List.replicate n f)).silence_samples =
          (if n = 0 then st.silence_samples else 0) ∧
        (runFrom c st (List.replicate n f)).total_samples =
          st.total_samples + n * f.length := by
  intro n
  induction n with
  | zero => intro st; simp [runFrom]
  | succ m ih =>
    intro st
    rw [List.replicate_succ]
    show (runFrom c (consumeChunk c st f) (List.replicate m f)).silence_samples
        = _ ∧
      (runFrom c (consumeChunk c st f) (List.replicate m f)).total_samples = _
    rcases ih (consumeChunk c st f) with ⟨h1, h2⟩
    rw [h1, h2]
    simp only [consumeChunk, hf, Bool.false_eq_true, if_false]
    constructor
    · simp
    · ring

lemma runFrom_all_silent (c : RecorderConfig) :
    ∀ (gs : List Frame) (st : SessionState),
      (∀ f ∈ gs, is_silent c f = true) →
      (runFrom c st gs).silence_samples
          = st.silence_samples + (gs.map List.length).sum ∧
        (runFrom c st gs).total_samples
          = st.total_samples + (gs.map List.length).sum := by
  intro gs
  induction gs with
  | nil => intro st _; simp [runFrom]
  | cons f rest ih =>
    intro st hall
    have hf : is_silent c f = true := hall f (by simp)
    have hrest : ∀ g ∈ rest, is_silent c g = true :=
      fun g hg => hall g (by simp [hg])
    rcases ih (consumeChunk c st f) hrest with ⟨h1, h2⟩
    constructor
    · show (runFrom c (consumeChunk c st f) rest).silence_samples = _
      rw [h1]
      simp only [consumeChunk, hf, if_true, List.map_cons, List.sum_cons]
      ring
    · show (runFrom c (consumeChunk c st f) rest).total_samples = _
      rw [h2]
      simp only [consumeChunk, List.map_cons, List.sum_cons]
      ring

/-- C3 counterexample: config (rate 4, threshold 1/2, silence 1 s), timeout
3 s (12 samples), six entirely-silent 2-sample frames covering the full
timeout duration.  The session stops at the third frame via the SILENCE
path (6 silent samples >= 4 and 6 total > 4), not via timeout. -/
theorem record_all_silent_counterexample :
    (record ⟨4, 1/2, 1⟩ 3 [[0,0],[0,0],[0,0],[0,0],[0,0],[0,0]]).2
        = StopReason.silence ∧
      StopReason.silence ≠ StopReason.timeout := by
  constructor
  · norm_num [record, recordLoop, consumeChunk, is_silent, sumSq, silence_stop,
      timeout_stop, samples_for_silence, max_samples, pyInt, initState]
  · simp

/-- C3 amended: an entirely-silent frame sequence makes `record()` stop via
the SILENCE condition, not the timeout, as soon as the total sample count
first exceeds `samples_for_silence` — provided `samples_for_silence` is
below `max_samples` (when it is not, the timeout can fire first). -/
theorem record_all_silent_stops_by_silence (c : RecorderConfig) (t : ℚ)
    (frames : List Frame) (i : ℕ)
    (hsil : ∀ f ∈ frames, is_silent c f = true)
    (hlt : samples_for_silence c < max_samples c t)
    (hi : i < frames.length)
    (htot : samples_for_silence c <
      ((stateAfter c (frames.take (i+1))).total_samples : ℤ))
    (hbefore : ∀ j, j < i →
      ((stateAfter c (frames.take (j+1))).total_samples : ℤ) ≤
        samples_for_silence c) :
    (record c t frames).2 = StopReason.silence := by
  have hpref : ∀ k : ℕ,
      (stateAfter c (frames.take k)).silence_samples =
        (stateAfter c (frames.take k)).total_samples := by
    intro k
    have hall : ∀ f ∈ frames.take k, is_silent c f = true :=
      fun f hf => hsil f (List.take_subset k frames hf)
    rcases runFrom_all_silent c (frames.take k) initState hall with ⟨h1, h2⟩
    simp only [stateAfter]
    rw [h1, h2]
    rfl
  have hA : silence_stop c (stateAfter c (frames.take (i+1))) = true := by
    rw [silence_stop_true_iff]
    refine ⟨?_, htot⟩
    rw [hpref (i+1)]
    exact le_of_lt htot
  have hb : ∀ j, j < i →
      silence_stop c (stateAfter c (frames.take (j+1))) = false ∧
      timeout_stop c t (stateAfter c (frames.take (j+1))) = false := by
    intro j hj
    have h := hbefore j hj
    constructor
    · rw [silence_stop_false_iff]
      exact Or.inr h
    · rw [timeout_stop_false_iff]
      exact lt_of_le_of_lt h hlt
  rw [record_silence_of_firstFire c t frames i hi hA hb]

/-- Witness for the amended C3 at the counterexample session (first total
count above `samples_for_silence = 4` is at the third frame). -/
theorem record_all_silent_stops_by_silence_witness :
    (record ⟨4, 1/2, 1⟩ 3 [[0,0],[0,0],[0,0],[0,0],[0,0],[0,0]]).2
      = StopReason.silence :=
  record_all_silent_stops_by_silence ⟨4, 1/2, 1⟩ 3
    [[0,0],[0,0],[0,0],[0,0],[0,0],[0,0]] 2
    (by intro f hf
        fin_cases hf <;> norm_num [is_silent, sumSq])
    (by norm_num [samples_for_silence, max_samples, pyInt])
    (by norm_num)
    (by norm_num [stateAfter, runFrom, consumeChunk, is_silent, sumSq,
      samples_for_silence, pyInt, initState])
    (by intro j hj
        interval_cases j <;>
          norm_num [stateAfter, runFrom, consumeChunk, is_silent, sumSq,
            samples_for_silence, pyInt, initState])

/-- C7 counterexample: with `timeout_seconds = 0` and the device delivering
a (loud) frame, `record()` returns that frame — not the empty sequence. -/
theorem record_zero_timeout_counterexample :
    record ⟨4, 1/10, 1⟩ 0 [[1,1]] = ([1,1], StopReason.timeout) ∧
      ([1,1] : List ℚ) ≠ [] := by
  constructor
  · norm_num [record, recordLoop, consumeChunk, is_silent, sumSq, silence_stop,
      timeout_stop, samples_for_silence, max_samples, pyInt, initState,
      empty_guard]
  · simp

/-- C7 amended: with `timeout_seconds = 0` the timeout condition
(`total_samples >= 0`) already holds after the FIRST consumed frame, so
`record()` stops right there and returns that frame (assuming the silence
condition does not also hold at that frame, in which case the silence path
is taken instead); the empty result arises only when no frame is ever
consumed. -/
theorem record_zero_timeout_first_frame (c : RecorderConfig) (f : Frame)
    (rest : List Frame)
    (hA : silence_stop c (consumeChunk c initState f) = false) :
    record c 0 (f :: rest) = (f, StopReason.timeout) := by
  have hms : max_samples c 0 = 0 := by
    norm_num [max_samples, pyInt]
  have hB : timeout_stop c 0 (consumeChunk c initState f) = true := by
    rw [timeout_stop_true_iff, hms]
    exact Int.natCast_nonneg _
  have key : recordLoop c 0 (f :: rest) initState =
      (if silence_stop c (consumeChunk c initState f)
        then (consumeChunk c initState f, StopReason.silence)
        else if timeout_stop c 0 (consumeChunk c initState f)
          then (consumeChunk c initState f, StopReason.timeout)
          else recordLoop c 0 rest (consumeChunk c initState f)) := rfl
  simp only [record, key, hA, hB]
  simp [consumeChunk, initState]

/-- Witness for the amended C7: timeout 0, one loud frame delivered. -/
theorem record_zero_timeout_first_frame_witness :
    record ⟨4, 1/10, 1⟩ 0 [[1,1]] = ([1,1], StopReason.timeout) :=
  record_zero_timeout_first_frame ⟨4, 1/10, 1⟩ [1,1] []
    (by norm_num [silence_stop, consumeChunk, is_silent, sumSq,
      samples_for_silence, pyInt, initState])

/-- Projection of the loop body onto the `silence_samples` counter. -/
lemma consumeChunk_silence_samples (c : RecorderConfig) (st : SessionState)
    (chunk : Frame) :
    (consumeChunk c st chunk).silence_samples =
      if is_silent c chunk then st.silence_samples + chunk.length else 0 := rfl

/-- C8: within one session, the consecutive-silence counter becomes zero
after consuming a frame whose RMS is at/above the threshold, and grows by
exactly the frame's length (hence does not decrease) after consuming a
frame whose RMS is below it. -/
theorem silence_counter_step_invariant (c : RecorderConfig)
    (frames : List Frame) (j : ℕ) (hj : j < frames.length) :
    (is_silent c frames[j] = false →
      (stateAfter c (frames.take (j+1))).silence_samples = 0) ∧
    (is_silent c frames[j] = true →
      (stateAfter c (frames.take (j+1))).silence_samples
          = (stateAfter c (frames.take j)).silence_samples
              + (frames[j]).length ∧
        (stateAfter c (frames.take j)).silence_samples
          ≤ (stateAfter c (frames.take (j+1))).silence_samples) := by
  have hs : stateAfter c (frames.take (j+1)) =
      consumeChunk c (stateAfter c (frames.take j)) frames[j] := by
    have ht : frames.take j ++ [frames[j]] = frames.take (j+1) := by
      rw [← List.concat_eq_append]
      exact List.take_concat_get frames j hj
    simp only [stateAfter]
    rw [← ht, runFrom_append]
    rfl
  refine ⟨fun hf => ?_, fun hf => ⟨?_, ?_⟩⟩
  · rw [hs, consumeChunk_silence_samples, hf]
    simp
  · rw [hs, consumeChunk_silence_samples, hf]
    simp
  · rw [hs, consumeChunk_silence_samples, hf]
    simp

/-- Witness for C8 at a concrete session: one silent 2-sample frame. -/
theorem silence_counter_step_invariant_witness :
    (stateAfter ⟨4, 1/10, 1⟩ (([[0,0]] : List Frame).take (0+1))).silence_samples
      = (stateAfter ⟨4, 1/10, 1⟩ (([[0,0]] : List Frame).take 0)).silence_samples
          + 2 :=
  (((silence_counter_step_invariant ⟨4, 1/10, 1⟩ [[0,0]] 0 (by norm_num)).2)
    (by norm_num [is_silent, sumSq])).1

/-- One 30 ms block at 16 kHz: 480 constant samples of value 1/2 (RMS 0.5). -/
def loud_block : Frame := List.replicate 480 (1/2)

/-- One 30 ms block at 16 kHz: 480 zero samples (RMS 0.0). -/
def silent_block : Frame := List.replicate 480 0

/-- The module defaults: rate 16000, threshold 0.01, silence 2.5 s. -/
def default_cfg : RecorderConfig :=
  ⟨SAMPLE_RATE, SILENCE_THRESHOLD, SILENCE_DURATION_S⟩

/-- Scenario A input: 100 loud blocks then 175 silent blocks. -/
def scenarioA_frames : List Frame :=
  List.replicate 100 loud_block ++ List.replicate 175 silent_block

/-- Scenario B input: loud blocks for 30 s (1000 blocks of 480 samples). -/
def scenarioB_frames : List Frame := List.replicate 1000 loud_block

lemma sumSq_replicate (n : ℕ) (x : ℚ) :
    sumSq (List.replicate n x) = n * (x * x) := by
  simp [sumSq, List.map_replicate, List.sum_replicate, nsmul_eq_mul]

lemma loud_block_not_silent : is_silent default_cfg loud_block = false := by
  have h : ¬ (sumSq loud_block <
      default_cfg.silence_threshold ^ 2 * loud_block.length) := by
    norm_num [loud_block, sumSq_replicate, default_cfg, SILENCE_THRESHOLD]
  simp [is_silent, decide_eq_false h]

lemma silent_block_is_silent : is_silent default_cfg silent_block = true := by
  have h0 : (0:ℚ) ≤ default_cfg.silence_threshold := by
    norm_num [default_cfg, SILENCE_THRESHOLD]
  have h : sumSq silent_block <
      default_cfg.silence_threshold ^ 2 * silent_block.length := by
    norm_num [silent_block, sumSq_replicate, default_cfg, SILENCE_THRESHOLD]
  simp [is_silent, h, h0]

lemma sfs_default : samples_for_silence default_cfg = 40000 := by
  norm_num [samples_for_silence, default_cfg, SAMPLE_RATE, SILENCE_DURATION_S,
    pyInt]

lemma ms_default : max_samples default_cfg 30 = 480000 := by
  norm_num [max_samples, default_cfg, SAMPLE_RATE, pyInt]

/-- Counters after `m` loud blocks followed by `k` silent blocks. -/
lemma stateAfter_mixed (m k : ℕ) :
    (stateAfter default_cfg
        (List.replicate m loud_block ++ List.replicate k silent_block)).silence_samples
        = 480 * k ∧
      (stateAfter default_cfg
        (List.replicate m loud_block ++ List.replicate k silent_block)).total_samples
        = 480 * (m + k) := by
  simp only [stateAfter, runFrom_append]
  rcases runFrom_replicate_loud default_cfg loud_block loud_block_not_silent m
    initState with ⟨c1, c2⟩
  rcases runFrom_replicate_silent default_cfg silent_block silent_block_is_silent
    k (runFrom default_cfg initState (List.replicate m loud_block)) with ⟨s1, s2⟩
  rw [s1, s2, c1, c2]
  have hl : loud_block.length = 480 := List.length_replicate 480 (1/2)
  have hs : silent_block.length = 480 := List.length_replicate 480 0
  rw [hl, hs]
  constructor
  · rcases Nat.eq_zero_or_pos m with h | h
    · simp [h, initState]
      omega
    · rw [if_neg (by omega)]
      omega
  · have hi0 : initState.total_samples = 0 := rfl
    rw [hi0]
    omega

lemma stateAfter_loud_run (n : ℕ) :
    (stateAfter default_cfg (List.replicate n loud_block)).silence_samples = 0 ∧
      (stateAfter default_cfg (List.replicate n loud_block)).total_samples
        = 480 * n := by
  have h := stateAfter_mixed n 0
  simpa using h

lemma scenarioA_take_loud (n : ℕ) (hn : n ≤ 100) :
    scenarioA_frames.take n = List.replicate n loud_block := by
  rw [scenarioA_frames, List.take_append_of_le_length (by simpa using hn),
    List.take_replicate, Nat.min_eq_left hn]

lemma scenarioA_take_mixed (n : ℕ) (h1 : 100 ≤ n) (h2 : n ≤ 275) :
    scenarioA_frames.take n =
      List.replicate 100 loud_block ++
        List.replicate (n - 100) silent_block := by
  rw [scenarioA_frames, List.take_append_eq_append_take]
  simp only [List.length_replicate, List.take_replicate]
  rw [Nat.min_eq_right h1, Nat.min_eq_left (by omega : n - 100 ≤ 175)]

/-- Scenario A run: the session stops via silence after 184 blocks
(100 loud + 84 silent). -/
lemma scenarioA_record :
    record default_cfg 30 scenarioA_frames =
      ((List.replicate 100 loud_block ++
          List.replicate 84 silent_block).flatten,
        StopReason.silence) := by
  have hlen : scenarioA_frames.length = 275 := by
    show (List.replicate 100 loud_block ++
      List.replicate 175 silent_block).length = 275
    rw [List.length_append, List.length_replicate, List.length_replicate]
  have hA : silence_stop default_cfg
      (stateAfter default_cfg (scenarioA_frames.take (183+1))) = true := by
    rw [scenarioA_take_mixed 184 (by omega) (by omega)]
    rcases stateAfter_mixed 100 84 with ⟨h1, h2⟩
    rw [silence_stop_true_iff, h1, h2, sfs_default]
    norm_num
  have hb : ∀ j, j < 183 →
      silence_stop default_cfg
        (stateAfter default_cfg (scenarioA_frames.take (j+1))) = false ∧
      timeout_stop default_cfg 30
        (stateAfter default_cfg (scenarioA_frames.take (j+1))) = false := by
    intro j hj
    rcases Nat.lt_or_ge j 100 with h100 | h100
    · have ht := scenarioA_take_loud (j+1) (by omega)
      rcases stateAfter_loud_run (j+1) with ⟨h1, h2⟩
      constructor
      · rw [ht, silence_stop_false_iff, h1, h2, sfs_default]
        left
        omega
      · rw [ht, timeout_stop_false_iff, h2, ms_default]
        omega
    · have ht := scenarioA_take_mixed (j+1) (by omega) (by omega)
      rcases stateAfter_mixed 100 (j+1-100) with ⟨h1, h2⟩
      constructor
      · rw [ht, silence_stop_false_iff, h1, h2, sfs_default]
        left
        omega
      · rw [ht, timeout_stop_false_iff, h2, ms_default]
        omega
  have h := record_silence_of_firstFire default_cfg 30 scenarioA_frames 183
    (by omega) hA hb
  rw [h, scenarioA_take_mixed 184 (by omega) (by omega)]

lemma flatten_mixed_length (m k : ℕ) :
    ((List.replicate m loud_block ++
        List.replicate k silent_block).flatten).length
      = m * 480 + k * 480 := by
  rw [List.length_flatten, List.map_append, List.map_replicate,
    List.map_replicate, List.sum_append, List.sum_replicate,
    List.sum_replicate]
  have hl : loud_block.length = 480 := List.length_replicate 480 (1/2)
  have hs : silent_block.length = 480 := List.length_replicate 480 0
  rw [hl, hs, smul_eq_mul, smul_eq_mul]

/-- C4 counterexample: under the Scenario A configuration and input, the
returned sequence length is 88320 = (100+84)*480, not 100*480 + 174*480. -/
theorem scenarioA_length_counterexample :
    (record default_cfg 30 scenarioA_frames).1.length ≠
      100 * 480 + 174 * 480 := by
  rw [scenarioA_record]
  show ((List.replicate 100 loud_block ++
      List.replicate 84 silent_block).flatten).length ≠ _
  rw [flatten_mixed_length]
  norm_num

/-- C4 amended: under the Scenario A configuration (rate 16000, threshold
0.01, silence 2.5 s, 480-sample blocks, timeout 30 s), with 100 loud blocks
then 175 silent blocks, the engine stops via silence after the 84th
consecutive silent block (84*480 = 40320 >= 40000 silent samples), and the
returned sequence has length 100*480 + 84*480. -/
theorem scenarioA_stops_after_84_silent_blocks :
    (record default_cfg 30 scenarioA_frames).1.length = 100 * 480 + 84 * 480 ∧
      (record default_cfg 30 scenarioA_frames).2 = StopReason.silence := by
  rw [scenarioA_record]
  constructor
  · show ((List.replicate 100 loud_block ++
        List.replicate 84 silent_block).flatten).length = _
    rw [flatten_mixed_length]
  · rfl

lemma scenarioB_take (n : ℕ) (hn : n ≤ 1000) :
    scenarioB_frames.take n = List.replicate n loud_block := by
  rw [scenarioB_frames, List.take_replicate, Nat.min_eq_left hn]

/-- Scenario B run: the session consumes all 1000 loud blocks and stops via
the timeout at exactly 480000 total samples. -/
lemma scenarioB_record :
    record default_cfg 30 scenarioB_frames =
      ((List.replicate 1000 loud_block).flatten, StopReason.timeout) := by
  have hlen : scenarioB_frames.length = 1000 := by
    show (List.replicate 1000 loud_block).length = 1000
    rw [List.length_replicate]
  have hA : ∀ n : ℕ, n ≤ 1000 →
      silence_stop default_cfg
        (stateAfter default_cfg (scenarioB_frames.take n)) = false := by
    intro n hn
    rw [scenarioB_take n hn, silence_stop_false_iff,
      (stateAfter_loud_run n).1, sfs_default]
    left
    omega
  have hb : ∀ j, j < 999 →
      silence_stop default_cfg
        (stateAfter default_cfg (scenarioB_frames.take (j+1))) = false ∧
      timeout_stop default_cfg 30
        (stateAfter default_cfg (scenarioB_frames.take (j+1))) = false := by
    intro j hj
    refine ⟨hA (j+1) (by omega), ?_⟩
    rw [scenarioB_take (j+1) (by omega), timeout_stop_false_iff,
      (stateAfter_loud_run (j+1)).2, ms_default]
    omega
  have hB : timeout_stop default_cfg 30
      (stateAfter default_cfg (scenarioB_frames.take (999+1))) = true := by
    rw [scenarioB_take 1000 le_rfl, timeout_stop_true_iff,
      (stateAfter_loud_run 1000).2, ms_default]
    omega
  have h := record_timeout_of_firstFire default_cfg 30 scenarioB_frames 999
    (by omega) (hA 1000 le_rfl) hB hb
  rw [h, scenarioB_take 1000 le_rfl]

/-- C5: with the Scenario A configuration and only loud blocks for 30 s
worth of samples, the engine stops via the timeout path and the returned
sequence length equals `max_samples` exactly (480000 samples, a whole
number of 480-sample blocks). -/
theorem scenarioB_timeout_exactly_max_samples :
    (record default_cfg 30 scenarioB_frames).2 = StopReason.timeout ∧
      ((record default_cfg 30 scenarioB_frames).1.length : ℤ)
        = max_samples default_cfg 30 := by
  rw [scenarioB_record]
  refine ⟨rfl, ?_⟩
  have hl : ((List.replicate 1000 loud_block).flatten).length = 480000 := by
    have h := flatten_mixed_length 1000 0
    rw [List.replicate_zero, List.append_nil] at h
    rw [h]
  show (((List.replicate 1000 loud_block).flatten).length : ℤ) = _
  rw [hl, ms_default]
  norm_num

lemma sumSq_nonneg (f : Frame) : 0 ≤ sumSq f := by
  rw [sumSq]
  apply List.sum_nonneg
  intro x hx
  rcases List.mem_map.mp hx with ⟨y, _, rfl⟩
  exact mul_self_nonneg y

/-- Faithfulness of the square-root-free silence test: on a nonempty frame
it agrees with the source's `sqrt(mean(x^2)) < threshold` over the reals. -/
lemma is_silent_iff_rms_lt (c : RecorderConfig) (f : Frame)
    (hf : 0 < f.length) :
    is_silent c f = true ↔
      Real.sqrt ((sumSq f : ℝ) / (f.length : ℝ)) <
        (c.silence_threshold : ℝ) := by
  have hlen : (0:ℝ) < (f.length : ℝ) := by exact_mod_cast hf
  rw [is_silent, Bool.and_eq_true, decide_eq_true_eq, decide_eq_true_eq]
  constructor
  · rintro ⟨h0, hlt⟩
    have hthr : (0:ℚ) < c.silence_threshold := by
      rcases eq_or_lt_of_le h0 with h1 | h1
      · exfalso
        rw [← h1] at hlt
        simp only [zero_pow, ne_eq, OfNat.ofNat_ne_zero, not_false_eq_true,
          zero_mul] at hlt
        exact absurd hlt (not_lt.mpr (sumSq_nonneg f))
      · exact h1
    rw [Real.sqrt_lt' (by exact_mod_cast hthr), div_lt_iff hlen]
    have : ((c.silence_threshold ^ 2 * f.length : ℚ) : ℝ) =
        ((c.silence_threshold : ℝ)) ^ 2 * (f.length : ℝ) := by push_cast; ring
    calc (sumSq f : ℝ) < ((c.silence_threshold ^ 2 * f.length : ℚ) : ℝ) := by
          exact_mod_cast hlt
      _ = _ := this
  · intro h
    have hthr : (0:ℝ) < (c.silence_threshold : ℝ) :=
      lt_of_le_of_lt (Real.sqrt_nonneg _) h
    rw [Real.sqrt_lt' hthr, div_lt_iff hlen] at h
    refine ⟨by exact_mod_cast le_of_lt hthr, ?_⟩
    have : ((c.silence_threshold ^ 2 * f.length : ℚ) : ℝ) =
        ((c.silence_threshold : ℝ)) ^ 2 * (f.length : ℝ) := by push_cast; ring
    exact_mod_cast this ▸ h

/-- Module-level constant `BEEP_FREQ_START = 880`. -/
def BEEP_FREQ_START : ℚ := 880

/-- Module-level constant `BEEP_FREQ_END = 440`. -/
def BEEP_FREQ_END : ℚ := 440

/-- Module-level constant `BEEP_DURATION = 0.25`. -/
def BEEP_DURATION : ℚ := 1/4

/-- Module-level constant `BEEP_SAMPLE_RATE = 44100`. -/
def BEEP_SAMPLE_RATE : ℕ := 44100

/-- `int(BEEP_SAMPLE_RATE * duration)`: the synthesized sample count of
`np.linspace(0, duration, ..., False)`. -/
def beepN (duration : ℚ) : ℕ := (pyInt (BEEP_SAMPLE_RATE * duration)).toNat

/-- `fade_samples = int(BEEP_SAMPLE_RATE * 0.01)`: 10 ms of fade. -/
def beepFadeSamples : ℕ := (pyInt (BEEP_SAMPLE_RATE * (1/100))).toNat

/-- `np.linspace(0, 1, fade_samples)` at buffer index `i`: the linear
fade-in coefficient applied to the first `fade_samples` samples. -/
def fadeIn (i : ℕ) : ℚ :=
  if i < beepFadeSamples then (i : ℚ) / ((beepFadeSamples - 1 : ℕ) : ℚ)
  else 1

/-- `np.linspace(1, 0, fade_samples)` at index `i` of an `n`-sample buffer:
the linear fade-out coefficient applied to the last `fade_samples`
samples (at index `i = n - fade_samples + k` its value is
`1 - k/(fade_samples-1) = (n-1-i)/(fade_samples-1)`). -/
def fadeOut (n i : ℕ) : ℚ :=
  if n - beepFadeSamples ≤ i then
    ((n - 1 - i : ℕ) : ℚ) / ((beepFadeSamples - 1 : ℕ) : ℚ)
  else 1

/-- Sample `i` of the synthesized tone:
`sin(2*pi*frequency*t_i)` with `t_i = duration*i/n` from
`np.linspace(0, duration, n, False)`, both fade coefficients applied,
scaled by the 0.5 volume level. -/
noncomputable def beepSample (frequency duration : ℚ) (i : ℕ) : ℝ :=
  Real.sin (2 * Real.pi * (frequency : ℝ) *
      ((duration : ℝ) * (i : ℝ) / (beepN duration : ℝ)))
    * (fadeIn i : ℝ) * (fadeOut (beepN duration) i : ℝ) * (1/2)

/-- The mono tone buffer synthesized by `play_beep`. -/
noncomputable def beepBuffer (frequency duration : ℚ) : List ℝ :=
  (List.range (beepN duration)).map (beepSample frequency duration)

/-- `play_beep(frequency, duration)`: the stereo buffer handed to
`sd.play` (each mono sample duplicated across the two channels by
`np.column_stack`), or `none` when the fade application fails (numpy
raises a broadcast error when fewer than `fade_samples` samples were
synthesized, i.e. for durations under 10 ms). -/
noncomputable def play_beep (frequency duration : ℚ) :
    Option (List (ℝ × ℝ)) :=
  if beepN duration < beepFadeSamples then none
  else some ((beepBuffer frequency duration).map (fun x => (x, x)))

/-- The call `play_beep(BEEP_FREQ_START)` at the start of `record()`. -/
noncomputable def recordStartBeep : Option (List (ℝ × ℝ)) :=
  play_beep BEEP_FREQ_START BEEP_DURATION

/-- The call `play_beep(BEEP_FREQ_END)` at the end of `record()`. -/
noncomputable def recordEndBeep : Option (List (ℝ × ℝ)) :=
  play_beep BEEP_FREQ_END BEEP_DURATION

lemma fadeIn_bounds (i : ℕ) : 0 ≤ fadeIn i ∧ fadeIn i ≤ 1 := by
  rw [fadeIn]
  split
  case isTrue h =>
    have h1 : (i:ℚ) ≤ ((beepFadeSamples - 1 : ℕ) : ℚ) := by
      exact_mod_cast (by omega : i ≤ beepFadeSamples - 1)
    have h2 : (0:ℚ) ≤ ((beepFadeSamples - 1 : ℕ) : ℚ) := by positivity
    refine ⟨by positivity, ?_⟩
    rcases eq_or_lt_of_le h2 with h3 | h3
    · rw [← h3]
      simp
    · exact (div_le_one h3).mpr h1
  case isFalse h => norm_num

lemma fadeOut_bounds (n i : ℕ) : 0 ≤ fadeOut n i ∧ fadeOut n i ≤ 1 := by
  rw [fadeOut]
  split
  case isTrue h =>
    have h1 : ((n - 1 - i : ℕ):ℚ) ≤ ((beepFadeSamples - 1 : ℕ) : ℚ) := by
      exact_mod_cast (by omega : n - 1 - i ≤ beepFadeSamples - 1)
    have h2 : (0:ℚ) ≤ ((beepFadeSamples - 1 : ℕ) : ℚ) := by positivity
    refine ⟨by positivity, ?_⟩
    rcases eq_or_lt_of_le h2 with h3 | h3
    · rw [← h3]
      simp
    · exact (div_le_one h3).mpr h1
  case isFalse h => norm_num

/-- Every synthesized sample has magnitude at most half of full scale. -/
lemma beepSample_abs_le (frequency duration : ℚ) (i : ℕ) :
    |beepSample frequency duration i| ≤ 1/2 := by
  rw [beepSample]
  rcases fadeIn_bounds i with ⟨hi0, hi1⟩
  rcases fadeOut_bounds (beepN duration) i with ⟨ho0, ho1⟩
  have hfi : |(fadeIn i : ℝ)| ≤ 1 := by
    rw [abs_of_nonneg (by exact_mod_cast hi0)]
    exact_mod_cast hi1
  have hfo : |(fadeOut (beepN duration) i : ℝ)| ≤ 1 := by
    rw [abs_of_nonneg (by exact_mod_cast ho0)]
    exact_mod_cast ho1
  have hs : |Real.sin (2 * Real.pi * (frequency : ℝ) *
      ((duration : ℝ) * (i : ℝ) / (beepN duration : ℝ)))| ≤ 1 :=
    Real.abs_sin_le_one _
  rw [abs_mul, abs_mul, abs_mul]
  have h12 : |(1/2 : ℝ)| = 1/2 := by norm_num
  rw [h12]
  calc |Real.sin _| * |(fadeIn i : ℝ)| * |(fadeOut (beepN duration) i : ℝ)|
        * (1/2)
      ≤ 1 * 1 * 1 * (1/2) := by gcongr <;> positivity
    _ = 1/2 := by norm_num

lemma beepBuffer_length (frequency duration : ℚ) :
    (beepBuffer frequency duration).length = beepN duration := by
  rw [beepBuffer, List.length_map, List.length_range]

/-- C9 counterexample: a positive duration below 10 ms (here 1/300 s, i.e.
147 synthesized samples, fewer than the 441 fade samples) makes the fade
application fail, so no tone buffer is produced at all. -/
theorem play_beep_short_duration_counterexample :
    play_beep 880 (1/300) = none ∧ (0:ℚ) < 1/300 := by
  constructor
  · simp only [play_beep]
    rw [if_pos]
    norm_num [beepN, beepFadeSamples, pyInt, BEEP_SAMPLE_RATE]
  · norm_num

/-- C9 amended: for every frequency and every duration of at least 10 ms
(`int(44100*duration) >= fade_samples`), `play_beep` produces the buffer of
`int(44100*duration)` samples per channel — the faded, half-scale sine wave
`beepBuffer` duplicated identically across the two stereo channels — with
every sample magnitude at most 0.5; and `record()` plays an 880 Hz tone of
0.25 s at start and a 440 Hz tone of 0.25 s at end.  (For durations under
10 ms the fade application fails and no buffer is produced.) -/
theorem play_beep_spec (frequency duration : ℚ)
    (h : beepFadeSamples ≤ beepN duration) :
    play_beep frequency duration =
        some ((beepBuffer frequency duration).map (fun x => (x, x)))
      ∧ (beepBuffer frequency duration).length = beepN duration
      ∧ (∀ x ∈ beepBuffer frequency duration, |x| ≤ 1/2)
      ∧ recordStartBeep = play_beep 880 (1/4)
      ∧ recordEndBeep = play_beep 440 (1/4) := by
  refine ⟨?_, beepBuffer_length frequency duration, ?_, rfl, rfl⟩
  · simp only [play_beep]
    rw [if_neg (by omega)]
  · intro x hx
    rw [beepBuffer] at hx
    rcases List.mem_map.mp hx with ⟨i, _, rfl⟩
    exact beepSample_abs_le frequency duration i

/-- Witness for the amended C9 at the start tone (880 Hz, 0.25 s: 11025
samples, above the 441 fade samples). -/
theorem play_beep_spec_witness :
    beepFadeSamples ≤ beepN (1/4) ∧
      play_beep 880 (1/4) =
        some ((beepBuffer 880 (1/4)).map (fun x => (x, x))) :=
  ⟨by norm_num [beepFadeSamples, beepN, pyInt, BEEP_SAMPLE_RATE],
   (play_beep_spec 880 (1/4)
     (by norm_num [beepFadeSamples, beepN, pyInt, BEEP_SAMPLE_RATE])).1⟩
